import Mathlib

/-
Verification of the call-session lifecycle coordinator in
`src/orchestrator.js` (WebRToSIP).

The orchestrator is an Express service with two webhook handlers,
`POST /wa/calling/connect` and `POST /wa/calling/terminate`, a module-level
`Map` named `activeCalls` from WhatsApp `call_id` to `{ edgeSessionId }`,
and remote-call helpers `preAccept`, `accept` and `terminate` (the latter
swallowing its own failures).  We embed the two handlers as pure functions
over an explicit registry, with the outcomes of the remote HTTP calls
supplied as oracles, and record every outbound remote call in a trace.
-/

namespace WebRToSIP

/-- The value stored in `activeCalls` for one call:
`activeCalls.set(callId, { edgeSessionId })` (orchestrator.js line 140). -/
structure CallSession where
  edgeSessionId : String
  deriving Repr, DecidableEq

/-- The `activeCalls` map (orchestrator.js line 107), embedded as an
insertion-ordered association list, matching JS `Map` semantics. -/
abbrev Registry := List (String × CallSession)

/-- `activeCalls.get(k)`: the first (and, for nodup keys, only) binding of `k`. -/
def regGet (reg : Registry) (k : String) : Option CallSession :=
  (reg.find? fun p => p.1 == k).map Prod.snd

/-- `activeCalls.get(x)` where `x` may be the JS value `undefined`
(a destructured field absent from the request body). -/
def regGetOpt (reg : Registry) : Option String → Option CallSession
  | none => none
  | some k => regGet reg k

/-- `activeCalls.set(k, v)`: replace the binding in place if the key is
present (JS `Map.set` keeps insertion order), else append it. -/
def regSet (reg : Registry) (k : String) (v : CallSession) : Registry :=
  if reg.any (fun p => p.1 == k) then
    reg.map fun p => if p.1 == k then (k, v) else p
  else
    reg ++ [(k, v)]

/-- `activeCalls.delete(k)`. -/
def regDelete (reg : Registry) (k : String) : Registry :=
  reg.filter fun p => !(p.1 == k)

/-- One outbound remote call issued by the orchestrator, in the order the
handlers `await` them. -/
inductive RemoteCall where
  /-- `axios.post(EDGE_API + "/webrtc/new", { call_id, sdp_offer })` (line 131). -/
  | negotiate (callId sdpOffer : String)
  /-- `callWaba("/calls/" + callId + "/pre_accept", { sdp, sdp_type })` (line 74). -/
  | preAccept (callId sdpAnswer : String)
  /-- `callWaba("/calls/" + callId + "/accept", \x7b\x7d)` (line 87). -/
  | accept (callId : String)
  /-- `axios.post(EDGE_API + "/webrtc/hangup", { edge_session_id })` (line 163). -/
  | hangup (edgeSessionId : String)
  /-- `callWaba("/calls/" + callId + "/terminate", \x7b\x7d)` (line 98); the
  `callId` is `Option` because the terminate handler never validates its body,
  so the JS value `undefined` can flow into the URL. -/
  | terminateNotify (callId : Option String)
  deriving Repr, DecidableEq

/-- The `session` field of a connect webhook body: `{ sdp, sdp_type }`. -/
structure SessionField where
  sdp : Option String
  deriving Repr, DecidableEq

/-- Body of `POST /wa/calling/connect` as destructured on line 120:
`const { call_id: callId, session } = req.body`. -/
structure ConnectBody where
  call_id : Option String
  session : Option SessionField
  deriving Repr, DecidableEq

/-- Body of `POST /wa/calling/terminate` as destructured on line 157. -/
structure TerminateBody where
  call_id : Option String
  deriving Repr, DecidableEq

/-- `resp.data` of the edge negotiate call, destructured on line 135:
`const { edge_session_id: edgeSessionId, sdp_answer: sdpAnswer } = resp.data`. -/
structure EdgeNegotiateData where
  edge_session_id : Option String
  sdp_answer : Option String
  deriving Repr, DecidableEq

instance (ε α : Type) [DecidableEq ε] [DecidableEq α] : DecidableEq (Except ε α) :=
  fun x y =>
    match x, y with
    | Except.ok a, Except.ok b =>
      if h : a = b then isTrue (by simp [h]) else isFalse (by simp [h])
    | Except.error a, Except.error b =>
      if h : a = b then isTrue (by simp [h]) else isFalse (by simp [h])
    | Except.ok _, Except.error _ => isFalse (by simp)
    | Except.error _, Except.ok _ => isFalse (by simp)

/-- Outcomes of the remote calls the connect handler may issue.  `Except.error`
models a rejected axios promise (network error or non-2xx status). -/
structure ConnectOracles where
  negotiate : Except Unit EdgeNegotiateData
  preAccept : Except Unit Unit
  accept : Except Unit Unit
  deriving Repr, DecidableEq

/-- Outcomes of the remote calls the terminate handler may issue. -/
structure TerminateOracles where
  hangup : Except Unit Unit
  wabaTerminate : Except Unit Unit
  deriving Repr, DecidableEq

/-- What one handler invocation produced: the HTTP status it sent, the
registry afterwards, and the outbound remote calls it attempted, in order. -/
structure ConnectResult where
  status : Nat
  registry : Registry
  trace : List RemoteCall
  deriving Repr, DecidableEq

/-- Result of one terminate-handler invocation. -/
structure TerminateResult where
  status : Nat
  registry : Registry
  trace : List RemoteCall
  deriving Repr, DecidableEq

/-- `terminate(callId)` (orchestrator.js lines 98-104): attempt the platform
terminate call and swallow any failure (`catch` + `log.warn`), so the outcome
of the remote call is ignored; the attempt itself is recorded. -/
def terminatePlatform (callId : Option String) (outcome : Except Unit Unit) :
    List RemoteCall :=
  match outcome with
  | Except.ok _ => [RemoteCall.terminateNotify callId]
  | Except.error _ => [RemoteCall.terminateNotify callId]

/-- The `POST /wa/calling/connect` handler (orchestrator.js lines 119-149).
Validation `if (!callId || !session || !session.sdp)` treats a missing field
and an empty string alike (JS falsiness); a `400` leaves the registry and the
wire untouched.  Afterwards: negotiate with the edge, validate
`edge_session_id` / `sdp_answer` (falsy values throw), record the mapping,
then `preAccept` and `accept`; any thrown error is caught and answered `500`
with no cleanup. -/
def connectFlow (reg : Registry) (body : ConnectBody) (o : ConnectOracles) :
    ConnectResult :=
  match body.call_id, body.session with
  | some callId, some sess =>
    match sess.sdp with
    | some sdp =>
      if callId.isEmpty || sdp.isEmpty then
        { status := 400, registry := reg, trace := [] }
      else
        match o.negotiate with
        | Except.error _ =>
          { status := 500, registry := reg,
            trace := [RemoteCall.negotiate callId sdp] }
        | Except.ok d =>
          match d.edge_session_id, d.sdp_answer with
          | some e, some a =>
            if e.isEmpty || a.isEmpty then
              { status := 500, registry := reg,
                trace := [RemoteCall.negotiate callId sdp] }
            else
              match o.preAccept with
              | Except.error _ =>
                { status := 500,
                  registry := regSet reg callId { edgeSessionId := e },
                  trace := [RemoteCall.negotiate callId sdp,
                            RemoteCall.preAccept callId a] }
              | Except.ok _ =>
                match o.accept with
                | Except.error _ =>
                  { status := 500,
                    registry := regSet reg callId { edgeSessionId := e },
                    trace := [RemoteCall.negotiate callId sdp,
                              RemoteCall.preAccept callId a,
                              RemoteCall.accept callId] }
                | Except.ok _ =>
                  { status := 200,
                    registry := regSet reg callId { edgeSessionId := e },
                    trace := [RemoteCall.negotiate callId sdp,
                              RemoteCall.preAccept callId a,
                              RemoteCall.accept callId] }
          | _, _ =>
            { status := 500, registry := reg,
              trace := [RemoteCall.negotiate callId sdp] }
    | none => { status := 400, registry := reg, trace := [] }
  | _, _ => { status := 400, registry := reg, trace := [] }

/-- The `POST /wa/calling/terminate` handler (orchestrator.js lines 156-175).
No payload validation.  If a registered session with a truthy `edgeSessionId`
exists, hang up on the edge and, only if that succeeded, delete the entry
(a thrown hangup error jumps to `catch`, skipping both the delete and the
platform notification, and answers `500`); otherwise skip straight to the
best-effort platform terminate and answer `200`. -/
def terminateFlow (reg : Registry) (body : TerminateBody) (o : TerminateOracles) :
    TerminateResult :=
  match body.call_id with
  | none =>
    { status := 200, registry := reg,
      trace := terminatePlatform none o.wabaTerminate }
  | some callId =>
    match regGet reg callId with
    | some st =>
      if st.edgeSessionId.isEmpty then
        { status := 200, registry := reg,
          trace := terminatePlatform (some callId) o.wabaTerminate }
      else
        match o.hangup with
        | Except.error _ =>
          { status := 500, registry := reg,
            trace := [RemoteCall.hangup st.edgeSessionId] }
        | Except.ok _ =>
          { status := 200, registry := regDelete reg callId,
            trace := RemoteCall.hangup st.edgeSessionId ::
              terminatePlatform (some callId) o.wabaTerminate }
    | none =>
      { status := 200, registry := reg,
        trace := terminatePlatform (some callId) o.wabaTerminate }

/-- A well-formed connect body with both required fields present. -/
def mkConnectBody (callId sdp : String) : ConnectBody :=
  { call_id := some callId, session := some { sdp := some sdp } }

/-- Every registry entry carries a non-empty `edgeSessionId`. -/
def goodReg (reg : Registry) : Prop :=
  ∀ p ∈ reg, p.2.edgeSessionId.isEmpty = false

/-- The registry binds each `callId` at most once (JS `Map` keying). -/
def uniqueKeys (reg : Registry) : Prop :=
  (reg.map Prod.fst).Nodup

/-- Number of registry entries bound to key `k`. -/
def countKey (reg : Registry) (k : String) : Nat :=
  (reg.filter fun p => p.1 == k).length

/-- The spec's per-session state machine.  The code stores no explicit state
field; these labels name lifecycle stages of the flows. -/
inductive SessionState where
  | Negotiating
  | Active
  | Terminating
  | Closed
  deriving Repr, DecidableEq

/-- Modelled from the spec (the code's registry entries carry no state
field): section 4.3 assigns `Active` to a session whose connect flow fully
succeeded, and a session that is registered but whose flow failed is still at
the `Negotiating` stage. -/
def sessionStateAfterConnect (r : ConnectResult) (callId : String) :
    Option SessionState :=
  match regGet r.registry callId with
  | none => none
  | some _ =>
    if r.status == 200 then some SessionState.Active
    else some SessionState.Negotiating

/-- The edge negotiate call succeeded and its response passed the handler's
field validation on line 136: both fields present and truthy. -/
def negotiateReturns (o : ConnectOracles) (e a : String) : Prop :=
  o.negotiate = Except.ok { edge_session_id := some e, sdp_answer := some a } ∧
  e.isEmpty = false ∧ a.isEmpty = false

/-! ### Concrete scenario inputs (spec section 8) -/

/-- Scenario A connect body: `{ callId := "C1", sdpOffer := "O1" }`. -/
def bodyC1 : ConnectBody := mkConnectBody "C1" "O1"

/-- A connect body missing its `call_id` field. -/
def bodyNoCallId : ConnectBody :=
  { call_id := none, session := some { sdp := some "O1" } }

/-- Scenario A oracles: negotiate returns `E1`/`A1`, both platform calls succeed. -/
def oraclesA : ConnectOracles :=
  { negotiate := Except.ok { edge_session_id := some "E1", sdp_answer := some "A1" },
    preAccept := Except.ok (), accept := Except.ok () }

/-- Oracles for a second connect: negotiate returns `E2`/`A2`, all succeed. -/
def oraclesA2 : ConnectOracles :=
  { negotiate := Except.ok { edge_session_id := some "E2", sdp_answer := some "A2" },
    preAccept := Except.ok (), accept := Except.ok () }

/-- Oracles where negotiate succeeds with `E1`/`A1` but `pre_accept` fails. -/
def oraclesPreFail : ConnectOracles :=
  { negotiate := Except.ok { edge_session_id := some "E1", sdp_answer := some "A1" },
    preAccept := Except.error (), accept := Except.ok () }

/-- Oracles where the negotiate response lacks its `edge_session_id` field. -/
def oraclesMissingId : ConnectOracles :=
  { negotiate := Except.ok { edge_session_id := none, sdp_answer := some "A1" },
    preAccept := Except.ok (), accept := Except.ok () }

/-- Registry holding the single session of scenario A. -/
def regC1E1 : Registry := [("C1", { edgeSessionId := "E1" })]

/-- Terminate body for `C1`. -/
def termBodyC1 : TerminateBody := { call_id := some "C1" }

/-- Terminate oracles where the edge hangup fails with a network error. -/
def termOraclesHangupFail : TerminateOracles :=
  { hangup := Except.error (), wabaTerminate := Except.ok () }

/-- Terminate oracles where every remote call succeeds. -/
def termOraclesOk : TerminateOracles :=
  { hangup := Except.ok (), wabaTerminate := Except.ok () }

/-- Terminate oracles where every remote call fails. -/
def termOraclesAllFail : TerminateOracles :=
  { hangup := Except.error (), wabaTerminate := Except.error () }

/-! ### Registry lemmas -/

theorem regGet_regSet (reg : Registry) (k : String) (v : CallSession) :
    regGet (regSet reg k v) k = some v := by
  induction reg with
  | nil => simp [regGet, regSet]
  | cons p t ih =>
    by_cases hpk : (p.1 == k) = true
    · have hany : ((p :: t).any fun q => q.1 == k) = true := by
        simp [List.any_cons, hpk]
      rw [regSet, if_pos hany, List.map_cons, if_pos hpk, regGet,
        List.find?_cons_of_pos _ (by simp)]
      rfl
    · rw [Bool.not_eq_true] at hpk
      by_cases hat : (t.any fun q => q.1 == k) = true
      · have hany : ((p :: t).any fun q => q.1 == k) = true := by
          simp [List.any_cons, hat]
        rw [regSet, if_pos hany, List.map_cons, if_neg (by simp [hpk]), regGet,
          List.find?_cons_of_neg _ (by simp [hpk])]
        have hset : regSet t k v = t.map fun q => if q.1 == k then (k, v) else q := by
          rw [regSet, if_pos hat]
        rw [← hset]
        exact ih
      · rw [Bool.not_eq_true] at hat
        have hany : ((p :: t).any fun q => q.1 == k) = false := by
          simp [List.any_cons, hpk, hat]
        rw [regSet, if_neg (by simp [hany]), List.cons_append, regGet,
          List.find?_cons_of_neg _ (by simp [hpk])]
        have hset : regSet t k v = t ++ [(k, v)] := by
          rw [regSet, if_neg (by simp [hat])]
        rw [← hset]
        exact ih

theorem regGet_regDelete (reg : Registry) (k : String) :
    regGet (regDelete reg k) k = none := by
  rw [regGet, Option.map_eq_none', List.find?_eq_none]
  intro p hp
  rcases List.mem_filter.mp hp with ⟨-, hq⟩
  simpa using hq

theorem not_mem_keys_of_any_eq_false (reg : Registry) (k : String)
    (h : (reg.any fun p => p.1 == k) = false) : k ∉ reg.map Prod.fst := by
  intro hk
  rcases List.mem_map.mp hk with ⟨p, hp, hpk⟩
  exact List.any_eq_false.mp h p hp (by simp [hpk])

theorem keys_regSet (reg : Registry) (k : String) (v : CallSession) :
    (regSet reg k v).map Prod.fst =
      if reg.any (fun p => p.1 == k) then reg.map Prod.fst
      else reg.map Prod.fst ++ [k] := by
  by_cases h : (reg.any fun p => p.1 == k) = true
  · simp only [regSet, h, if_true, List.map_map]
    refine List.map_congr_left ?_
    intro p hp
    by_cases hpk : (p.1 == k) = true
    · simp [Function.comp, hpk, eq_of_beq hpk]
    · rw [Bool.not_eq_true] at hpk
      simp [Function.comp, hpk]
  · rw [Bool.not_eq_true] at h
    simp [regSet, h]

theorem uniqueKeys_regSet (reg : Registry) (k : String) (v : CallSession)
    (hu : uniqueKeys reg) : uniqueKeys (regSet reg k v) := by
  rw [uniqueKeys, keys_regSet]
  by_cases h : (reg.any fun p => p.1 == k) = true
  · simpa [h] using hu
  · rw [Bool.not_eq_true] at h
    have hnot : k ∉ reg.map Prod.fst := not_mem_keys_of_any_eq_false reg k h
    simp only [h, Bool.false_eq_true, if_false]
    exact List.Nodup.append hu (List.nodup_singleton k)
      (by simpa [List.disjoint_singleton] using hnot)

theorem uniqueKeys_regDelete (reg : Registry) (k : String)
    (hu : uniqueKeys reg) : uniqueKeys (regDelete reg k) := by
  exact List.Nodup.sublist
    (List.Sublist.map Prod.fst (List.filter_sublist reg)) hu

theorem goodReg_regSet (reg : Registry) (k : String) (v : CallSession)
    (hg : goodReg reg) (hv : v.edgeSessionId.isEmpty = false) :
    goodReg (regSet reg k v) := by
  intro p hp
  rw [regSet] at hp
  by_cases h : reg.any (fun q => q.1 == k)
  · rw [if_pos h] at hp
    rcases List.mem_map.mp hp with ⟨q, hq, hqp⟩
    by_cases hqk : q.1 == k
    · simp only [hqk, if_true] at hqp
      rw [← hqp]
      exact hv
    · simp only [hqk, if_false] at hqp
      rw [← hqp]
      exact hg q hq
  · rw [if_neg h] at hp
    rcases List.mem_append.mp hp with hq | hq
    · exact hg p hq
    · rw [List.mem_singleton.mp hq]
      exact hv

theorem goodReg_regDelete (reg : Registry) (k : String) (hg : goodReg reg) :
    goodReg (regDelete reg k) := by
  intro p hp
  exact hg p (List.mem_of_mem_filter hp)

theorem countKey_eq_count_keys (reg : Registry) (k : String) :
    countKey reg k = (reg.map Prod.fst).count k := by
  rw [countKey, ← List.countP_eq_length_filter, List.count_eq_countP,
    List.countP_map]
  rfl

theorem countKey_regSet (reg : Registry) (k : String) (v : CallSession)
    (hu : uniqueKeys reg) : countKey (regSet reg k v) k = 1 := by
  rw [countKey_eq_count_keys, keys_regSet]
  by_cases h : (reg.any fun p => p.1 == k) = true
  · rcases List.any_eq_true.mp h with ⟨p, hp, hpk⟩
    have hk : k ∈ reg.map Prod.fst :=
      List.mem_map.mpr ⟨p, hp, eq_of_beq hpk⟩
    simpa [h] using List.count_eq_one_of_mem hu hk
  · rw [Bool.not_eq_true] at h
    have hnot : k ∉ reg.map Prod.fst := not_mem_keys_of_any_eq_false reg k h
    simp [h, List.count_append, List.count_eq_zero_of_not_mem hnot]

/-! ### Exhaustive case analyses of the two handlers -/

theorem connectFlow_valid_cases (reg : Registry) (callId sdp : String)
    (o : ConnectOracles) (hc : callId.isEmpty = false) (hs : sdp.isEmpty = false) :
    connectFlow reg (mkConnectBody callId sdp) o =
      { status := 500, registry := reg,
        trace := [RemoteCall.negotiate callId sdp] } ∨
    ∃ e a, negotiateReturns o e a ∧
      ((o.preAccept = Except.error () ∧
        connectFlow reg (mkConnectBody callId sdp) o =
          { status := 500, registry := regSet reg callId { edgeSessionId := e },
            trace := [RemoteCall.negotiate callId sdp,
                      RemoteCall.preAccept callId a] }) ∨
       (o.preAccept = Except.ok () ∧ o.accept = Except.error () ∧
        connectFlow reg (mkConnectBody callId sdp) o =
          { status := 500, registry := regSet reg callId { edgeSessionId := e },
            trace := [RemoteCall.negotiate callId sdp,
                      RemoteCall.preAccept callId a,
                      RemoteCall.accept callId] }) ∨
       (o.preAccept = Except.ok () ∧ o.accept = Except.ok () ∧
        connectFlow reg (mkConnectBody callId sdp) o =
          { status := 200, registry := regSet reg callId { edgeSessionId := e },
            trace := [RemoteCall.negotiate callId sdp,
                      RemoteCall.preAccept callId a,
                      RemoteCall.accept callId] })) := by
  rcases hn : o.negotiate with u | d
  · left
    simp [connectFlow, mkConnectBody, hc, hs, hn]
  · obtain ⟨ei, sa⟩ := d
    cases ei with
    | none =>
      left
      simp [connectFlow, mkConnectBody, hc, hs, hn]
    | some e =>
      cases sa with
      | none =>
        left
        simp [connectFlow, mkConnectBody, hc, hs, hn]
      | some a =>
        by_cases hea : (e.isEmpty || a.isEmpty) = true
        · left
          simp [connectFlow, mkConnectBody, hc, hs, hn, hea]
        · rw [Bool.not_eq_true] at hea
          rcases Bool.or_eq_false_iff.mp hea with ⟨he, ha⟩
          right
          refine ⟨e, a, ⟨hn, he, ha⟩, ?_⟩
          cases hp : o.preAccept with
          | error u =>
            cases u
            left
            refine ⟨rfl, ?_⟩
            simp [connectFlow, mkConnectBody, hc, hs, hn, he, ha, hp]
          | ok u =>
            cases u
            cases hac : o.accept with
            | error w =>
              cases w
              right; left
              refine ⟨rfl, rfl, ?_⟩
              simp [connectFlow, mkConnectBody, hc, hs, hn, he, ha, hp, hac]
            | ok w =>
              cases w
              right; right
              refine ⟨rfl, rfl, ?_⟩
              simp [connectFlow, mkConnectBody, hc, hs, hn, he, ha, hp, hac]

theorem connectFlow_invalid_body (reg : Registry) (body : ConnectBody)
    (o : ConnectOracles)
    (h : ¬∃ callId sdp, callId.isEmpty = false ∧ sdp.isEmpty = false ∧
      body = mkConnectBody callId sdp) :
    connectFlow reg body o = { status := 400, registry := reg, trace := [] } := by
  obtain ⟨ci, se⟩ := body
  cases ci with
  | none => simp [connectFlow]
  | some c =>
    cases se with
    | none => simp [connectFlow]
    | some sf =>
      obtain ⟨sd⟩ := sf
      cases sd with
      | none => simp [connectFlow]
      | some s =>
        by_cases hcs : (c.isEmpty || s.isEmpty) = true
        · simp [connectFlow, hcs]
        · rw [Bool.not_eq_true] at hcs
          rcases Bool.or_eq_false_iff.mp hcs with ⟨hc, hs⟩
          exact absurd ⟨c, s, hc, hs, rfl⟩ h

theorem connectFlow_registry_cases (reg : Registry) (body : ConnectBody)
    (o : ConnectOracles) :
    (connectFlow reg body o).registry = reg ∨
    ∃ callId e, e.isEmpty = false ∧
      (connectFlow reg body o).registry = regSet reg callId { edgeSessionId := e } := by
  by_cases hb : ∃ callId sdp, callId.isEmpty = false ∧ sdp.isEmpty = false ∧
      body = mkConnectBody callId sdp
  · obtain ⟨callId, sdp, hc, hs, rfl⟩ := hb
    rcases connectFlow_valid_cases reg callId sdp o hc hs with h | ⟨e, a, hr, hcase⟩
    · left
      rw [h]
    · right
      refine ⟨callId, e, hr.2.1, ?_⟩
      rcases hcase with ⟨-, h⟩ | ⟨-, -, h⟩ | ⟨-, -, h⟩ <;> rw [h]
  · left
    rw [connectFlow_invalid_body reg body o hb]

theorem terminateFlow_cases (reg : Registry) (body : TerminateBody)
    (o : TerminateOracles) :
    (terminateFlow reg body o =
      { status := 200, registry := reg,
        trace := [RemoteCall.terminateNotify body.call_id] }) ∨
    (∃ callId st, body.call_id = some callId ∧ regGet reg callId = some st ∧
      st.edgeSessionId.isEmpty = false ∧
      ((o.hangup = Except.error () ∧
        terminateFlow reg body o =
          { status := 500, registry := reg,
            trace := [RemoteCall.hangup st.edgeSessionId] }) ∨
       (o.hangup = Except.ok () ∧
        terminateFlow reg body o =
          { status := 200, registry := regDelete reg callId,
            trace := [RemoteCall.hangup st.edgeSessionId,
                      RemoteCall.terminateNotify (some callId)] }))) := by
  obtain ⟨ci⟩ := body
  obtain ⟨hg, wt⟩ := o
  cases ci with
  | none =>
    left
    cases wt <;> simp [terminateFlow, terminatePlatform]
  | some c =>
    rcases hr : regGet reg c with - | st
    · left
      cases wt <;> simp [terminateFlow, terminatePlatform, hr]
    · by_cases he : st.edgeSessionId.isEmpty = true
      · left
        cases wt <;> simp [terminateFlow, terminatePlatform, hr, he]
      · rw [Bool.not_eq_true] at he
        right
        refine ⟨c, st, rfl, hr, he, ?_⟩
        cases hg with
        | error u =>
          cases u
          left
          exact ⟨rfl, by cases wt <;> simp [terminateFlow, terminatePlatform, hr, he]⟩
        | ok u =>
          cases u
          right
          exact ⟨rfl, by cases wt <;> simp [terminateFlow, terminatePlatform, hr, he]⟩

/-! ### Claims -/

/-- C1 counterexample: after a successful connect registered `C1` with edge
session `E1`, a second connect event for `C1` is NOT rejected as a conflict:
negotiate is invoked again, the flow answers 200, and the registry entry is
silently overwritten with the new edge session `E2`. -/
theorem C1_counterexample :
    regGet (connectFlow [] bodyC1 oraclesA).registry "C1" =
      some { edgeSessionId := "E1" } ∧
    RemoteCall.negotiate "C1" "O1" ∈
      (connectFlow (connectFlow [] bodyC1 oraclesA).registry bodyC1 oraclesA2).trace ∧
    (connectFlow (connectFlow [] bodyC1 oraclesA).registry bodyC1 oraclesA2).status
      = 200 ∧
    regGet (connectFlow (connectFlow [] bodyC1 oraclesA).registry bodyC1
      oraclesA2).registry "C1" = some { edgeSessionId := "E2" } := by
  decide

/-- C1 (amended): the registry, being a map, binds each `callId` to at most
one session at any instant, but a connect event for an already-registered
`callId` is NOT rejected as a conflict: the handler invokes negotiate again
(it is the first remote call of the flow), and when the new negotiation
succeeds the existing entry is overwritten with the new edge session id. -/
theorem C1_amended_second_connect_renegotiates (reg : Registry)
    (callId sdp : String) (o : ConnectOracles) (s : CallSession)
    (hu : uniqueKeys reg) (hreg : regGet reg callId = some s)
    (hc : callId.isEmpty = false) (hs : sdp.isEmpty = false) :
    uniqueKeys (connectFlow reg (mkConnectBody callId sdp) o).registry ∧
    (connectFlow reg (mkConnectBody callId sdp) o).trace.head? =
      some (RemoteCall.negotiate callId sdp) ∧
    (∀ e a, negotiateReturns o e a →
      regGet (connectFlow reg (mkConnectBody callId sdp) o).registry callId =
        some { edgeSessionId := e }) := by
  refine ⟨?_, ?_, ?_⟩
  · rcases connectFlow_registry_cases reg (mkConnectBody callId sdp) o with
      h | ⟨k, e, he, h⟩
    · rw [h]
      exact hu
    · rw [h]
      exact uniqueKeys_regSet reg k _ hu
  · rcases connectFlow_valid_cases reg callId sdp o hc hs with
      h | ⟨e, a, hr, hcase⟩
    · rw [h]
      rfl
    · rcases hcase with ⟨-, h⟩ | ⟨-, -, h⟩ | ⟨-, -, h⟩ <;> rw [h] <;> rfl
  · intro e a hr
    obtain ⟨hn, he, ha⟩ := hr
    have hred : (connectFlow reg (mkConnectBody callId sdp) o).registry =
        regSet reg callId { edgeSessionId := e } := by
      cases hp : o.preAccept with
      | error u =>
        cases u
        simp [connectFlow, mkConnectBody, hc, hs, hn, he, ha, hp]
      | ok u =>
        cases u
        cases hac : o.accept with
        | error w =>
          cases w
          simp [connectFlow, mkConnectBody, hc, hs, hn, he, ha, hp, hac]
        | ok w =>
          cases w
          simp [connectFlow, mkConnectBody, hc, hs, hn, he, ha, hp, hac]
    rw [hred, regGet_regSet]

/-- Witness for C1 (amended) at scenario-B-like input: registry already
holds `C1`, the second connect renegotiates with `E2`/`A2`. -/
theorem C1_amended_witness :
    uniqueKeys (connectFlow regC1E1 (mkConnectBody "C1" "O1") oraclesA2).registry ∧
    (connectFlow regC1E1 (mkConnectBody "C1" "O1") oraclesA2).trace.head? =
      some (RemoteCall.negotiate "C1" "O1") ∧
    regGet (connectFlow regC1E1 (mkConnectBody "C1" "O1") oraclesA2).registry "C1" =
      some { edgeSessionId := "E2" } := by
  obtain ⟨h1, h2, h3⟩ := C1_amended_second_connect_renegotiates regC1E1 "C1" "O1"
    oraclesA2 { edgeSessionId := "E1" } (by simp [uniqueKeys, regC1E1])
    (by decide) (by decide) (by decide)
  exact ⟨h1, h2, h3 "E2" "A2" ⟨rfl, by decide, by decide⟩⟩

/-- C2 counterexample: negotiate succeeds with `E1`/`A1`, then `pre_accept`
fails; the handler answers 500 but invokes NO hangup, and the registry entry
for `C1` is NOT removed. -/
theorem C2_counterexample :
    (connectFlow [] bodyC1 oraclesPreFail).status = 500 ∧
    regGet (connectFlow [] bodyC1 oraclesPreFail).registry "C1" =
      some { edgeSessionId := "E1" } ∧
    (connectFlow [] bodyC1 oraclesPreFail).trace.countP
      (fun c => match c with | RemoteCall.hangup _ => true | _ => false) = 0 := by
  decide

/-- C2 (amended): if negotiate succeeds but `pre_accept` or `accept`
subsequently fails, the connect handler reports failure (500) but performs no
compensating cleanup: hangup is never invoked, and the registry entry for the
`callId` remains, still carrying that call's edge session id. -/
theorem C2_amended_no_cleanup_on_acceptance_failure (reg : Registry)
    (callId sdp e a : String) (o : ConnectOracles)
    (hc : callId.isEmpty = false) (hs : sdp.isEmpty = false)
    (hr : negotiateReturns o e a)
    (hfail : o.preAccept = Except.error () ∨
      (o.preAccept = Except.ok () ∧ o.accept = Except.error ())) :
    (connectFlow reg (mkConnectBody callId sdp) o).status = 500 ∧
    regGet (connectFlow reg (mkConnectBody callId sdp) o).registry callId =
      some { edgeSessionId := e } ∧
    ∀ x, RemoteCall.hangup x ∉ (connectFlow reg (mkConnectBody callId sdp) o).trace := by
  obtain ⟨hn, he, ha⟩ := hr
  rcases hfail with hp | ⟨hp, hac⟩
  · have hred : connectFlow reg (mkConnectBody callId sdp) o =
        { status := 500, registry := regSet reg callId { edgeSessionId := e },
          trace := [RemoteCall.negotiate callId sdp,
                    RemoteCall.preAccept callId a] } := by
      simp [connectFlow, mkConnectBody, hc, hs, hn, he, ha, hp]
    rw [hred]
    refine ⟨rfl, regGet_regSet reg callId _, ?_⟩
    intro x
    simp
  · have hred : connectFlow reg (mkConnectBody callId sdp) o =
        { status := 500, registry := regSet reg callId { edgeSessionId := e },
          trace := [RemoteCall.negotiate callId sdp,
                    RemoteCall.preAccept callId a,
                    RemoteCall.accept callId] } := by
      simp [connectFlow, mkConnectBody, hc, hs, hn, he, ha, hp, hac]
    rw [hred]
    refine ⟨rfl, regGet_regSet reg callId _, ?_⟩
    intro x
    simp

/-- Witness for C2 (amended): concrete run where `pre_accept` fails after a
successful negotiation. -/
theorem C2_amended_witness :
    (connectFlow [] (mkConnectBody "C1" "O1") oraclesPreFail).status = 500 ∧
    regGet (connectFlow [] (mkConnectBody "C1" "O1") oraclesPreFail).registry "C1" =
      some { edgeSessionId := "E1" } ∧
    ∀ x, RemoteCall.hangup x ∉
      (connectFlow [] (mkConnectBody "C1" "O1") oraclesPreFail).trace :=
  C2_amended_no_cleanup_on_acceptance_failure [] "C1" "O1" "E1" "A1" oraclesPreFail
    (by decide) (by decide) ⟨rfl, by decide, by decide⟩ (Or.inl rfl)

/-- C3 counterexample: scenario E on the code.  `C1` is registered with edge
session `E1`; the edge hangup fails with a network error.  The handler then
answers 500 (not success) and the registry entry for `C1` is NOT removed. -/
theorem C3_counterexample :
    (terminateFlow regC1E1 termBodyC1 termOraclesHangupFail).status = 500 ∧
    regGet (terminateFlow regC1E1 termBodyC1 termOraclesHangupFail).registry "C1" =
      some { edgeSessionId := "E1" } := by
  decide

/-- C3 (amended): in the terminate flow the session is removed from the
registry only when the edge hangup succeeds; when the hangup call fails, the
catch branch reports failure (500) and the registry entry remains. -/
theorem C3_amended_removal_requires_hangup_success (reg : Registry)
    (callId : String) (st : CallSession) (o : TerminateOracles)
    (hreg : regGet reg callId = some st)
    (hne : st.edgeSessionId.isEmpty = false) :
    (o.hangup = Except.error () →
      (terminateFlow reg { call_id := some callId } o).status = 500 ∧
      (terminateFlow reg { call_id := some callId } o).registry = reg) ∧
    (o.hangup = Except.ok () →
      (terminateFlow reg { call_id := some callId } o).status = 200 ∧
      regGet (terminateFlow reg { call_id := some callId } o).registry callId =
        none) := by
  obtain ⟨hg, wt⟩ := o
  constructor
  · intro hh
    have hh2 : hg = Except.error () := hh
    cases wt <;> simp [terminateFlow, terminatePlatform, hreg, hne, hh2]
  · intro hh
    have hh2 : hg = Except.ok () := hh
    cases wt <;>
      simp [terminateFlow, terminatePlatform, hreg, hne, hh2, regGet_regDelete]

/-- Witness for C3 (amended), applied once with a failing and once with a
succeeding hangup. -/
theorem C3_amended_witness :
    ((terminateFlow regC1E1 { call_id := some "C1" } termOraclesHangupFail).status
        = 500 ∧
      (terminateFlow regC1E1 { call_id := some "C1" } termOraclesHangupFail).registry
        = regC1E1) ∧
    ((terminateFlow regC1E1 { call_id := some "C1" } termOraclesOk).status = 200 ∧
      regGet (terminateFlow regC1E1 { call_id := some "C1" } termOraclesOk).registry
        "C1" = none) :=
  ⟨(C3_amended_removal_requires_hangup_success regC1E1 "C1"
      { edgeSessionId := "E1" } termOraclesHangupFail (by decide) (by decide)).1 rfl,
    (C3_amended_removal_requires_hangup_success regC1E1 "C1"
      { edgeSessionId := "E1" } termOraclesOk (by decide) (by decide)).2 rfl⟩

/-- C4: within one call's connect flow the three remote calls are strictly
sequenced: whenever a `pre_accept` request appears in the trace, negotiate
has succeeded (validated response) and the negotiate request is the first
call of the trace; whenever an `accept` request appears, `pre_accept`
completed successfully and its request immediately follows negotiate. -/
theorem C4_connect_strict_sequencing (reg : Registry) (body : ConnectBody)
    (o : ConnectOracles) :
    (∀ c a, RemoteCall.preAccept c a ∈ (connectFlow reg body o).trace →
      (∃ e a2, negotiateReturns o e a2) ∧
      (∃ s, (connectFlow reg body o).trace.head? =
        some (RemoteCall.negotiate c s))) ∧
    (∀ c, RemoteCall.accept c ∈ (connectFlow reg body o).trace →
      o.preAccept = Except.ok () ∧
      (∃ a, (connectFlow reg body o).trace[1]? =
        some (RemoteCall.preAccept c a))) := by
  by_cases hb : ∃ callId sdp, callId.isEmpty = false ∧ sdp.isEmpty = false ∧
      body = mkConnectBody callId sdp
  · obtain ⟨callId, sdp, hc, hs, rfl⟩ := hb
    rcases connectFlow_valid_cases reg callId sdp o hc hs with
      h | ⟨e, a, hr, hcase⟩
    · rw [h]
      constructor
      · intro c a2 hmem
        simp at hmem
      · intro c hmem
        simp at hmem
    · rcases hcase with ⟨hp, h⟩ | ⟨hp, hac, h⟩ | ⟨hp, hac, h⟩ <;> rw [h]
      · constructor
        · intro c a2 hmem
          simp at hmem
          obtain ⟨hc1, -⟩ := hmem
          subst hc1
          exact ⟨⟨e, a, hr⟩, ⟨sdp, rfl⟩⟩
        · intro c hmem
          simp at hmem
      · constructor
        · intro c a2 hmem
          simp at hmem
          obtain ⟨hc1, -⟩ := hmem
          subst hc1
          exact ⟨⟨e, a, hr⟩, ⟨sdp, rfl⟩⟩
        · intro c hmem
          simp at hmem
          subst hmem
          exact ⟨hp, ⟨a, rfl⟩⟩
      · constructor
        · intro c a2 hmem
          simp at hmem
          obtain ⟨hc1, -⟩ := hmem
          subst hc1
          exact ⟨⟨e, a, hr⟩, ⟨sdp, rfl⟩⟩
        · intro c hmem
          simp at hmem
          subst hmem
          exact ⟨hp, ⟨a, rfl⟩⟩
  · rw [connectFlow_invalid_body reg body o hb]
    constructor
    · intro c a hmem
      simp at hmem
    · intro c hmem
      simp at hmem

/-- Witness for C4 at scenario A: the trace contains `pre_accept` and
`accept`, negotiate succeeded and heads the trace, `pre_accept` is second. -/
theorem C4_witness :
    ((∃ e a2, negotiateReturns oraclesA e a2) ∧
      (∃ s, (connectFlow [] bodyC1 oraclesA).trace.head? =
        some (RemoteCall.negotiate "C1" s))) ∧
    (oraclesA.preAccept = Except.ok () ∧
      (∃ a, (connectFlow [] bodyC1 oraclesA).trace[1]? =
        some (RemoteCall.preAccept "C1" a))) :=
  ⟨(C4_connect_strict_sequencing [] bodyC1 oraclesA).1 "C1" "A1" (by decide),
    (C4_connect_strict_sequencing [] bodyC1 oraclesA).2 "C1" (by decide)⟩

/-- C5: a negotiate response missing its `edge_session_id` or its
`sdp_answer` field is treated as a negotiate failure: the connect flow
answers 500 and the registry is left exactly as it was (no entry created). -/
theorem C5_negotiate_missing_field_fails (reg : Registry) (callId sdp : String)
    (o : ConnectOracles) (d : EdgeNegotiateData)
    (hc : callId.isEmpty = false) (hs : sdp.isEmpty = false)
    (hn : o.negotiate = Except.ok d)
    (hmiss : d.edge_session_id = none ∨ d.sdp_answer = none) :
    (connectFlow reg (mkConnectBody callId sdp) o).status = 500 ∧
    (connectFlow reg (mkConnectBody callId sdp) o).registry = reg := by
  obtain ⟨ei, sa⟩ := d
  rcases hmiss with h | h
  · subst h
    simp [connectFlow, mkConnectBody, hc, hs, hn]
  · subst h
    cases ei with
    | none => simp [connectFlow, mkConnectBody, hc, hs, hn]
    | some e => simp [connectFlow, mkConnectBody, hc, hs, hn]

/-- Witness for C5: a response carrying only `sdp_answer`. -/
theorem C5_witness :
    (connectFlow [] (mkConnectBody "C1" "O1") oraclesMissingId).status = 500 ∧
    (connectFlow [] (mkConnectBody "C1" "O1") oraclesMissingId).registry = [] :=
  C5_negotiate_missing_field_fails [] "C1" "O1" oraclesMissingId
    { edge_session_id := none, sdp_answer := some "A1" }
    (by decide) (by decide) rfl (Or.inl rfl)

/-- C6: a connect payload missing the `callId` or a non-empty SDP offer is
rejected as malformed (400) with no state mutation: the registry is unchanged
and no remote call (negotiate, pre_accept, accept) is issued. -/
theorem C6_malformed_connect_rejected (reg : Registry) (body : ConnectBody)
    (o : ConnectOracles)
    (h : body.call_id = none ∨ body.session = none ∨
      body.session.bind SessionField.sdp = none ∨
      body.session.bind SessionField.sdp = some "") :
    (connectFlow reg body o).status = 400 ∧
    (connectFlow reg body o).registry = reg ∧
    (connectFlow reg body o).trace = [] := by
  obtain ⟨ci, se⟩ := body
  cases ci with
  | none => simp [connectFlow]
  | some c =>
    cases se with
    | none => simp [connectFlow]
    | some sf =>
      obtain ⟨sd⟩ := sf
      cases sd with
      | none => simp [connectFlow]
      | some s =>
        have hs : s = "" := by
          rcases h with h | h | h | h
          · exact absurd h (by simp)
          · exact absurd h (by simp)
          · exact absurd h (by simp)
          · simpa using h
        subst hs
        simp [connectFlow, String.isEmpty]

/-- Witness for C6: a payload with an SDP offer but no `call_id`. -/
theorem C6_witness :
    (connectFlow regC1E1 bodyNoCallId oraclesA).status = 400 ∧
    (connectFlow regC1E1 bodyNoCallId oraclesA).registry = regC1E1 ∧
    (connectFlow regC1E1 bodyNoCallId oraclesA).trace = [] :=
  C6_malformed_connect_rejected regC1E1 bodyNoCallId oraclesA (Or.inl rfl)

/-- C7: the terminate flow is idempotent and error-free when no session is
registered for the event's `callId` (including a missing `call_id` field and
a repeated terminate): no hangup is issued, the best-effort platform
terminate is still attempted, its failure is swallowed (the oracles are
arbitrary), the registry is unchanged, and the handler answers 200. -/
theorem C7_terminate_without_session_succeeds (reg : Registry)
    (body : TerminateBody) (o : TerminateOracles)
    (h : regGetOpt reg body.call_id = none) :
    (terminateFlow reg body o).status = 200 ∧
    (terminateFlow reg body o).registry = reg ∧
    (terminateFlow reg body o).trace =
      [RemoteCall.terminateNotify body.call_id] ∧
    ∀ x, RemoteCall.hangup x ∉ (terminateFlow reg body o).trace := by
  obtain ⟨ci⟩ := body
  obtain ⟨hg, wt⟩ := o
  cases ci with
  | none =>
    cases wt <;> simp [terminateFlow, terminatePlatform]
  | some c =>
    have hc : regGet reg c = none := h
    cases wt <;> simp [terminateFlow, terminatePlatform, hc]

/-- Witness for C7: a second terminate for `C1` right after a successful one
removed the session; the platform terminate fails and is swallowed. -/
theorem C7_witness :
    (terminateFlow (terminateFlow regC1E1 termBodyC1 termOraclesOk).registry
      termBodyC1 termOraclesAllFail).status = 200 ∧
    (terminateFlow (terminateFlow regC1E1 termBodyC1 termOraclesOk).registry
      termBodyC1 termOraclesAllFail).registry =
      (terminateFlow regC1E1 termBodyC1 termOraclesOk).registry ∧
    (terminateFlow (terminateFlow regC1E1 termBodyC1 termOraclesOk).registry
      termBodyC1 termOraclesAllFail).trace =
      [RemoteCall.terminateNotify termBodyC1.call_id] ∧
    ∀ x, RemoteCall.hangup x ∉
      (terminateFlow (terminateFlow regC1E1 termBodyC1 termOraclesOk).registry
        termBodyC1 termOraclesAllFail).trace :=
  C7_terminate_without_session_succeeds
    (terminateFlow regC1E1 termBodyC1 termOraclesOk).registry
    termBodyC1 termOraclesAllFail (by decide)

/-- C8: on a fully successful connect flow the handler answers 200, the
registry binds the `callId` to exactly one entry carrying the negotiated edge
session id, and the session is `Active` in the spec's state machine. -/
theorem C8_successful_connect (reg : Registry) (callId sdp e a : String)
    (o : ConnectOracles) (hu : uniqueKeys reg)
    (hc : callId.isEmpty = false) (hs : sdp.isEmpty = false)
    (hr : negotiateReturns o e a)
    (hpa : o.preAccept = Except.ok ()) (hac : o.accept = Except.ok ()) :
    (connectFlow reg (mkConnectBody callId sdp) o).status = 200 ∧
    regGet (connectFlow reg (mkConnectBody callId sdp) o).registry callId =
      some { edgeSessionId := e } ∧
    countKey (connectFlow reg (mkConnectBody callId sdp) o).registry callId = 1 ∧
    sessionStateAfterConnect (connectFlow reg (mkConnectBody callId sdp) o)
      callId = some SessionState.Active := by
  obtain ⟨hn, he, ha⟩ := hr
  have hred : connectFlow reg (mkConnectBody callId sdp) o =
      { status := 200, registry := regSet reg callId { edgeSessionId := e },
        trace := [RemoteCall.negotiate callId sdp,
                  RemoteCall.preAccept callId a,
                  RemoteCall.accept callId] } := by
    simp [connectFlow, mkConnectBody, hc, hs, hn, he, ha, hpa, hac]
  rw [hred]
  refine ⟨rfl, regGet_regSet reg callId _, countKey_regSet reg callId _ hu, ?_⟩
  simp [sessionStateAfterConnect, regGet_regSet]

/-- Witness for C8 at scenario A (`C1`/`O1`, edge returns `E1`/`A1`). -/
theorem C8_witness :
    (connectFlow [] (mkConnectBody "C1" "O1") oraclesA).status = 200 ∧
    regGet (connectFlow [] (mkConnectBody "C1" "O1") oraclesA).registry "C1" =
      some { edgeSessionId := "E1" } ∧
    countKey (connectFlow [] (mkConnectBody "C1" "O1") oraclesA).registry "C1" = 1 ∧
    sessionStateAfterConnect (connectFlow [] (mkConnectBody "C1" "O1") oraclesA)
      "C1" = some SessionState.Active :=
  C8_successful_connect [] "C1" "O1" "E1" "A1" oraclesA
    (by simp [uniqueKeys]) (by decide) (by decide)
    ⟨rfl, by decide, by decide⟩ rfl rfl

/-- C9: registry invariant — if every registered session carries a non-empty
`edgeSessionId`, any connect-handler or terminate-handler invocation
preserves this, because entries are only inserted after the negotiate
response passed the truthiness validation of line 136, and the only other
registry operation is deletion. -/
theorem C9_registry_edge_ids_nonempty (reg : Registry) (cb : ConnectBody)
    (tb : TerminateBody) (co : ConnectOracles) (tho : TerminateOracles)
    (hg : goodReg reg) :
    goodReg (connectFlow reg cb co).registry ∧
    goodReg (terminateFlow reg tb tho).registry := by
  constructor
  · rcases connectFlow_registry_cases reg cb co with h | ⟨k, e, he, h⟩
    · rw [h]
      exact hg
    · rw [h]
      exact goodReg_regSet reg k _ hg he
  · rcases terminateFlow_cases reg tb tho with h | ⟨k, st, -, -, -, hcase⟩
    · rw [h]
      exact hg
    · rcases hcase with ⟨-, h⟩ | ⟨-, h⟩
      · rw [h]
        exact hg
      · rw [h]
        exact goodReg_regDelete reg k hg

/-- Witness for C9: a registry holding `C1 ↦ E1`, a connect overwriting it
and a terminate removing it. -/
theorem C9_witness :
    goodReg (connectFlow regC1E1 bodyC1 oraclesA2).registry ∧
    goodReg (terminateFlow regC1E1 termBodyC1 termOraclesOk).registry :=
  C9_registry_edge_ids_nonempty regC1E1 bodyC1 termBodyC1 oraclesA2 termOraclesOk
    (by intro p hp; rw [List.mem_singleton.mp hp]; decide)

/-- C10: the terminate endpoint performs no payload validation: no request is
ever answered 400, and a body with no `call_id` at all still flows through
the handler — no session is found, hangup is skipped, the best-effort
platform terminate is issued with the missing (`undefined`) value, and the
handler answers 200 with the registry untouched. -/
theorem C10_terminate_never_rejects (reg : Registry) (body : TerminateBody)
    (o : TerminateOracles) :
    (terminateFlow reg body o).status ≠ 400 ∧
    (body.call_id = none →
      (terminateFlow reg body o).status = 200 ∧
      (terminateFlow reg body o).registry = reg ∧
      (terminateFlow reg body o).trace = [RemoteCall.terminateNotify none]) := by
  constructor
  · rcases terminateFlow_cases reg body o with h | ⟨k, st, -, -, -, hcase⟩
    · rw [h]
      simp
    · rcases hcase with ⟨-, h⟩ | ⟨-, h⟩ <;> rw [h] <;> simp
  · intro hnone
    obtain ⟨ci⟩ := body
    obtain ⟨hg, wt⟩ := o
    have hci : ci = none := hnone
    subst hci
    cases wt <;> simp [terminateFlow, terminatePlatform]

/-- Witness for C10: a terminate request with no `call_id`, every remote
call failing. -/
theorem C10_witness :
    (terminateFlow regC1E1 { call_id := none } termOraclesAllFail).status ≠ 400 ∧
    (terminateFlow regC1E1 { call_id := none } termOraclesAllFail).status = 200 ∧
    (terminateFlow regC1E1 { call_id := none } termOraclesAllFail).registry =
      regC1E1 ∧
    (terminateFlow regC1E1 { call_id := none } termOraclesAllFail).trace =
      [RemoteCall.terminateNotify none] :=
  ⟨(C10_terminate_never_rejects regC1E1 { call_id := none } termOraclesAllFail).1,
    (C10_terminate_never_rejects regC1E1 { call_id := none } termOraclesAllFail).2
      rfl⟩

end WebRToSIP
